import Mathlib

/-!
Verification of the HimmyBot chatbot core (`himmybot.py`).

This file gives a shallow embedding of the program's pure core — the
keyword matcher, the intent classifier `detect_intent`, the response
composer `build_response`, the command parser `parse_command`, the command
handlers (`handle_photo`, `handle_rec`, `handle_roll`, `handle_quiz`) and
the per-turn logic of `run_chat` — and proves the specification claims
about them.

Modelling conventions:
* Python strings are Lean `String`s; character-level work is done on
  `String.data : List Char`.
* `str.lower()` is modelled on ASCII letters only (`lowerChar`); the
  Python original also lowercases non-ASCII letters, which none of the
  program's keywords or templates need.
* `str.strip()` is modelled as trimming the six ASCII whitespace
  characters Python strips (`pySpace`); Unicode spaces are not modelled.
* The regex word-character class `\w` is modelled as ASCII
  alphanumerics plus underscore (`isWordChar`).
* Randomness is injected: every `random.choice(pool)` takes a natural
  number index used modulo the pool's length (`pickFrom`), every
  `random.random() < p` comparison is an injected boolean, and
  `random.randint(a, b)` clamps an injected natural into `[a, b]`
  (`randint`).  The draw sites of one call are collected in explicit
  record types (`BRand`, `ChatRand`).
-/

/-- The six ASCII whitespace characters stripped by Python `str.strip()`
and matched by the regex class `\s`. -/
def pySpace (c : Char) : Bool :=
  c == ' ' || c == '\t' || c == '\n' || c == '\r' || c == '\x0b' || c == '\x0c'

/-- ASCII-only model of Python `str.lower()` on one character. -/
def lowerChar (c : Char) : Char :=
  if 65 ≤ c.toNat ∧ c.toNat ≤ 90 then Char.ofNat (c.toNat + 32) else c

/-- Model of Python `str.lower()`. -/
def pyLower (s : String) : String := String.mk (s.data.map lowerChar)

/-- Right trim: drop trailing characters satisfying `p`. -/
def trimR (p : Char → Bool) (l : List Char) : List Char :=
  (List.dropWhile p l.reverse).reverse

/-- Strip leading and trailing Python whitespace from a character list. -/
def stripList (l : List Char) : List Char := trimR pySpace (List.dropWhile pySpace l)

/-- Model of Python `str.strip()` (no argument: strips whitespace). -/
def pyStrip (s : String) : String := String.mk (stripList s.data)

/-- Boolean test that the first list is a leading segment of the second. -/
def listPre : List Char → List Char → Bool
  | [], _ => true
  | _ :: _, [] => false
  | a :: as, b :: bs => a == b && listPre as bs

/-- Boolean substring test, modelling Python's `small in big`. -/
def strHasB (big small : String) : Bool :=
  (List.range (big.data.length + 1)).any (fun i => listPre small.data (big.data.drop i))

/-- Propositional substring containment: `small` occurs contiguously in `big`. -/
def strHas (big small : String) : Prop :=
  ∃ a b : List Char, big.data = a ++ small.data ++ b

theorem listPre_iff (s t : List Char) : listPre s t = true ↔ ∃ u, t = s ++ u := by
  induction s generalizing t with
  | nil => simp [listPre]
  | cons a as ih =>
    cases t with
    | nil => simp [listPre]
    | cons b bs =>
      simp only [listPre, Bool.and_eq_true, beq_iff_eq, ih]
      constructor
      · rintro ⟨rfl, u, rfl⟩
        exact ⟨u, rfl⟩
      · rintro ⟨u, h⟩
        injection h with h1 h2
        exact ⟨h1.symm, u, h2⟩

theorem strHasB_iff (big small : String) : strHasB big small = true ↔ strHas big small := by
  unfold strHasB strHas
  rw [List.any_eq_true]
  constructor
  · rintro ⟨i, _, hp⟩
    obtain ⟨u, hu⟩ := (listPre_iff _ _).mp hp
    refine ⟨big.data.take i, u, ?_⟩
    conv_lhs => rw [← List.take_append_drop i big.data]
    rw [hu, List.append_assoc]
  · rintro ⟨a, b, h⟩
    refine ⟨a.length, ?_, ?_⟩
    · rw [List.mem_range, h]
      simp only [List.length_append]
      omega
    · rw [(listPre_iff _ _), h, List.append_assoc, List.drop_left]
      exact ⟨b, rfl⟩

theorem strHas_appL {x s : String} (y : String) (h : strHas x s) : strHas (x ++ y) s := by
  obtain ⟨a, b, hab⟩ := h
  exact ⟨a, b ++ y.data, by rw [String.data_append, hab]; simp⟩

theorem strHas_appR {y s : String} (x : String) (h : strHas y s) : strHas (x ++ y) s := by
  obtain ⟨a, b, hab⟩ := h
  exact ⟨x.data ++ a, b, by rw [String.data_append, hab]; simp⟩

theorem strHas_refl (s : String) : strHas s s := ⟨[], [], by simp⟩

theorem toNat_lowerChar (c : Char) :
    (lowerChar c).toNat = if 65 ≤ c.toNat ∧ c.toNat ≤ 90 then c.toNat + 32 else c.toNat := by
  unfold lowerChar
  split
  · next h =>
    unfold Char.ofNat
    rw [dif_pos (Or.inl (by omega : c.toNat + 32 < 55296))]
    rfl
  · rfl

theorem lowerChar_id_of {c : Char} (h : ¬(65 ≤ c.toNat ∧ c.toNat ≤ 90)) : lowerChar c = c := by
  unfold lowerChar
  rw [if_neg h]

theorem lowerChar_idem (c : Char) : lowerChar (lowerChar c) = lowerChar c := by
  apply lowerChar_id_of
  have h := toNat_lowerChar c
  by_cases hc : 65 ≤ c.toNat ∧ c.toNat ≤ 90
  · rw [if_pos hc] at h; omega
  · rw [if_neg hc] at h; omega

theorem pyLower_idem (s : String) : pyLower (pyLower s) = pyLower s := by
  unfold pyLower
  simp [List.map_map, Function.comp_def, lowerChar_idem]

theorem dropWhile_self {α : Type} (p : α → Bool) (l : List α) :
    List.dropWhile p (List.dropWhile p l) = List.dropWhile p l := by
  induction l with
  | nil => rfl
  | cons a t ih =>
    rw [List.dropWhile_cons]
    split
    · exact ih
    · rw [List.dropWhile_cons, if_neg ‹_›]

theorem head_false_of_dropWhile_self {α : Type} {p : α → Bool} {c : α} {t : List α}
    (h : List.dropWhile p (c :: t) = c :: t) : p c = false := by
  rw [List.dropWhile_cons] at h
  split at h
  · have hl := (@List.dropWhile_suffix _ t p).length_le
    rw [h] at hl
    simp at hl
  · next hp => simpa using hp

theorem trimR_idem (p : Char → Bool) (l : List Char) : trimR p (trimR p l) = trimR p l := by
  unfold trimR
  rw [List.reverse_reverse, dropWhile_self]

theorem dropWhile_trimR (p : Char → Bool) (x : List Char)
    (hx : List.dropWhile p x = x) : List.dropWhile p (trimR p x) = trimR p x := by
  obtain ⟨t, ht⟩ := @List.dropWhile_suffix _ x.reverse p
  have hx' : x = trimR p x ++ t.reverse := by
    unfold trimR
    calc x = x.reverse.reverse := (List.reverse_reverse x).symm
    _ = (t ++ List.dropWhile p x.reverse).reverse := by rw [ht]
    _ = (List.dropWhile p x.reverse).reverse ++ t.reverse := by rw [List.reverse_append]
  cases hy : trimR p x with
  | nil => simp
  | cons c cs =>
    have hxc : x = c :: (cs ++ t.reverse) := by rw [hx', hy]; rfl
    have hpc : p c = false := by
      apply @head_false_of_dropWhile_self _ p c (cs ++ t.reverse)
      rw [← hxc]
      exact hx
    rw [List.dropWhile_cons, if_neg (by simp [hpc])]

theorem stripList_idem (l : List Char) : stripList (stripList l) = stripList l := by
  unfold stripList
  rw [dropWhile_trimR pySpace _ (dropWhile_self pySpace l), trimR_idem]

theorem pyStrip_idem (s : String) : pyStrip (pyStrip s) = pyStrip s := by
  unfold pyStrip
  rw [stripList_idem]

theorem stripList_eq_nil (l : List Char) (h : stripList l = []) : l.all pySpace = true := by
  unfold stripList trimR at h
  have h2 : List.dropWhile pySpace (List.dropWhile pySpace l).reverse = [] := by
    have := congrArg List.reverse h
    rwa [List.reverse_reverse] at this
  rw [List.dropWhile_eq_nil_iff] at h2
  rw [List.all_eq_true]
  intro x hx
  rcases List.mem_append.mp ((List.takeWhile_append_dropWhile pySpace l ▸ hx : _)) with h3 | h3
  · exact List.mem_takeWhile_imp h3
  · exact h2 x (List.mem_reverse.mpr h3)

theorem pyStrip_ne_empty {s : String} {c : Char} (hc : c ∈ s.data) (hcs : pySpace c = false)
    : pyStrip s ≠ "" := by
  intro h
  have hnil : stripList s.data = [] := by
    have := congrArg String.data h
    simpa [pyStrip] using this
  have := (List.all_eq_true.mp (stripList_eq_nil _ hnil)) c hc
  rw [hcs] at this
  exact Bool.false_ne_true this

/-! ### Word-boundary keyword matching (`_contains_any`)

The source builds, for each keyword `k`, the regex `\b` + `re.escape(k)`
+ `\b` and searches the lowercased text.  A `\b` assertion holds at a
position where exactly one of the two surrounding characters (string
edges counting as non-characters) is a word character. -/

/-- Model of the regex class `\w` (ASCII part). -/
def isWordChar (c : Char) : Bool := c.isAlphanum || c == '_'

def isWordCharO : Option Char → Bool
  | none => false
  | some c => isWordChar c

/-- `\b` between the two given (optional) characters. -/
def boundaryB (a b : Option Char) : Bool := isWordCharO a != isWordCharO b

/-- Does `\b k \b` match text `T` at position `i`?  (For nonempty `k`.) -/
def wbAt (T K : List Char) (i : Nat) : Bool :=
  listPre K (T.drop i) &&
  boundaryB (if i = 0 then none else T.getD (i - 1) ' ' |> some) K.head? &&
  boundaryB K.getLast? (T[i + K.length]?)

/-- Search for a word-boundary-delimited occurrence of `k` in `t`,
modelling `re.search(r"\b" + re.escape(k) + r"\b", t)`. -/
def wbSearchB (t k : String) : Bool :=
  (List.range (t.data.length + 1)).any (fun i => wbAt t.data k.data i)

/-- Model of `_contains_any(text, keywords)`: lowercases text and each
keyword, skips empty keywords, and tests for a word-bounded occurrence. -/
def contains_any (text : String) (keywords : List String) : Bool :=
  keywords.any (fun k => if k = "" then false else wbSearchB (pyLower text) (pyLower k))

/-! ### Keyword groups and the intent classifier -/

def _PHOTO_KEYWORDS : List String := [
  "photo", "picture", "pic", "camera", "photograph", "photography", "sunset",
  "golden hour", "shot", "dslr", "lens", "iso", "aperture", "exposure"]

def _PATAPSC0_KEYS : List String := ["patapsco", "patapsco valley", "ellicott", "ellicott city"]

def _SLED_KEYS : List String := [
  "sled", "sledding", "st. john", "st john", "st. john's", "st john's", "st. johns", "st johns",
  "st. john's lane", "st johns lane", "st john's lane"]

def _EDM_KEYS : List String := [
  "edm", "calvin", "flume", "deadmau5", "skrillex", "tiesto", "tiësto", "martin garrix", "garrix",
  "marshmello", "diplo"]

def _GAME_KEYS : List String := [
  "game", "survev", "surviv", "io game", "surviv.io", "survev.io", "match", "clutch", "grind", "play"]

def _HISTORY_KEYS : List String := [
  "history", "world history", "ap world", "ap world history", "mr. walters", "mr walters",
  "walter", "walters", "ww2", "wwii", "world war 2", "world war ii", "second world war"]

def _APENV_KEYS : List String := ["ap env", "ap environmental", "apes", "environmental science",
  "ms. mcgarry", "ms mcgarry", "mcgarry", "mrs mcgarry"]

def _GREET_KEYS : List String := ["hi", "hello", "hey", "hiya", "yo", "sup"]

def _SIMPLE_QS : List String := [
  "who are you", "what's your name", "what is your name", "how are you", "how's it going",
  "what are you up to"]

/-- The literal WWII substrings tested by rule 3 of `detect_intent`. -/
def WW2_TOKENS : List String := ["ww2", "wwii", "world war 2", "world war ii", "second world war"]

/-- Rule 2 of `detect_intent`: greeting keyword (word-bounded) or simple
self-referential question (plain substring). -/
def greetingHit (ui : String) : Bool :=
  contains_any ui _GREET_KEYS || _SIMPLE_QS.any (fun q => strHasB ui q)

/-- Model of `ui.strip().endswith("?")`: the stripped text's last
character is a question mark. -/
def endsQmark (s : String) : Bool := s.data.getLast? == some '?'

/-- Rule 3 of `detect_intent`: explicit WWII token as plain substring. -/
def ww2Hit (ui : String) : Bool := WW2_TOKENS.any (fun k => strHasB ui k)

/-- Model of `detect_intent(user_input)`. -/
def detect_intent (user_input : String) : Option String :=
  let ui := pyLower user_input
  if pyStrip ui = "" then none
  else if greetingHit ui then some "greeting"
  else if ww2Hit ui then some "ww2"
  else if strHasB ui "walter" || strHasB ui "mr. walters" || strHasB ui "mr walters" then
    some "mr_walters"
  else if contains_any ui _APENV_KEYS then some "apenv"
  else if contains_any ui _PATAPSC0_KEYS && contains_any ui _PHOTO_KEYWORDS then
    some "patapsco_photo"
  else if contains_any ui _SLED_KEYS then some "sled"
  else if contains_any ui _PHOTO_KEYWORDS then some "photography"
  else if contains_any ui _EDM_KEYS then some "edm"
  else if contains_any ui _GAME_KEYS then some "game"
  else if contains_any ui _HISTORY_KEYS then some "history"
  else if strHasB ui "recommend" || strHasB ui "rec" then some "recommend"
  else if endsQmark (pyStrip ui) then some "unknown_question"
  else none

theorem pyStrip_ne_of_ww2Hit {ui : String} (h : ww2Hit ui = true) : pyStrip ui ≠ "" := by
  unfold ww2Hit at h
  rw [List.any_eq_true] at h
  obtain ⟨k, hk, hs⟩ := h
  rw [strHasB_iff] at hs
  obtain ⟨a, b, hab⟩ := hs
  have hw : ∃ c ∈ k.data, pySpace c = false := by
    fin_cases hk <;> exact ⟨'w', by decide, by decide⟩
  obtain ⟨c, hc, hcs⟩ := hw
  exact pyStrip_ne_empty (by rw [hab]; simp [hc]) hcs

/-- C1 — The claim as stated is refuted: "hey ww2" contains the explicit
WWII token "ww2" as a literal substring, yet `detect_intent` returns
`greeting`, not `ww2`, because the greeting rule has higher priority. -/
theorem c1_counterexample :
    strHasB (pyLower "hey ww2") "ww2" = true ∧
    detect_intent "hey ww2" = some "greeting" ∧
    detect_intent "hey ww2" ≠ some "ww2" := by
  refine ⟨by decide, by decide, by decide⟩

/-- C1 (amended) — For every input containing an explicit WWII token as a
literal substring of its lowercasing, `detect_intent` returns `ww2`
provided the higher-priority greeting rule (whole-word greeting token or
simple-question substring) does not fire. -/
theorem c1_ww2_priority (input : String)
    (hw : ww2Hit (pyLower input) = true)
    (hg : greetingHit (pyLower input) = false) :
    detect_intent input = some "ww2" := by
  unfold detect_intent
  rw [if_neg (pyStrip_ne_of_ww2Hit hw), if_neg (by simp [hg]), if_pos hw]

/-- Witness for C1: "tell me about ww2" satisfies the hypotheses and is
classified as `ww2`. -/
theorem c1_ww2_priority_witness :
    ww2Hit (pyLower "tell me about ww2") = true ∧
    greetingHit (pyLower "tell me about ww2") = false ∧
    detect_intent "tell me about ww2" = some "ww2" :=
  ⟨by decide, by decide, c1_ww2_priority "tell me about ww2" (by decide) (by decide)⟩

/-! ### Template pools -/

def SURVEV_LINE : String :=
  "Also, have you played Surviv (now Survev.io) lately? That .io game still hits."

def OPENERS : List String := [
  "Yo! I'm Himmy.",
  "Heyyy, I'm Himmy.",
  "Sup, I'm Himmy.",
  "Ayo, Himmy here.",
  "What's good? Himmy in the house.",
  "Yo yo, Himmy on the mic.",
  "Heeeyyy, it's Himmy.",
  "Wassup? Himmy's vibin'.",
  "Hey! Himmy checking in.",
  "Yo! You found Himmy."]

def TOPICS : List String := [
  "I'm lowkey grinding some games after class.",
  "I've been taking outdoor pics of sunsets and trails.",
  "EDM playlists have been carrying my vibe lately.",
  "Kinda wanna hit the park with my camera later.",
  "Ngl I'm in a gaming mood tonight.",
  "Trying to map out new photo spots for golden hour.",
  "Been hunting EDM drops for my next playlist — fire recs welcome.",
  "Just finished a clutch match and ngl it felt iconic.",
  "Lowkey thinking of learning some synths for beats.",
  "Going on a quick hike after school to catch the sunset.",
  "Spent last weekend wandering Patapsco Valley State Park — those river views slap.",
  "Ellicott City's trails are so pretty at golden hour, you should check Patapsco.",
  "I've been nerding out about WWII timelines in Mr. Walters' class — wild stuff.",
  "Ms. McGarry had us doing an APES stream survey once — nature nerd moment."]

def FOLLOW_UPS : List String := [
  "What are you into right now?",
  "You got any music recs?",
  "Wanna swap game recs?",
  "Got any cool photo spots?",
  "What's your go-to track when you vibe out?",
  "You ever play .io games? Which one slaps?",
  "Any camera tips I should try for sunsets?",
  "You streaming or just chilling tonight?",
  "Ever been to Patapsco? Got a favorite trail?",
  "You ever try sledding down a hill that felt way too steep? lol",
  "You into history? What's your favorite era?",
  "Ever take a science class that made you lowkey obsessed with nature?"]

def QUIPS : List String := [
  "Lowkey think Survev matches are the best way to de-stress ngl.",
  "Not tryna flex but my EDM playlist bangs at 2AM.",
  "If you spot a sick sunset pic, that was probably me.",
  "I lowkey rage when I get third-partied in Survev.",
  "Pro tip: golden hour = instant aesthetic.",
  "Vibes so strong, even my playlist has a playlist.",
  "I collect map spots like they're rare loot drops.",
  "No cap, sunsets > everything else sometimes.",
  "Bet I can find a park with better vibes than your last spot.",
  "My camera roll is basically moodboard central.",
  "Used to sled the hill by St. John's Lane Elementary back in the day — scraped knees and all.",
  "Ellicott City sunsets hit different, ngl — Patapsco's got the vibes.",
  "Patapsco's rivers and old bridges are perfect for moody shots, 10/10 rec.",
  "I still walk those trails and pretend I'm scouting shots for an insta feed.",
  "EDM's my mood — I jam everything from Calvin Harris to Flume and Deadmau5.",
  "Marshmello, Skrillex, Tiësto, Martin Garrix — can't pick just one, I love 'em all.",
  "If you got a Tiësto or Diplo banger, drop it, I'm adding to the playlist.",
  "My playlist goes from chill Flume vibes to full-on Martin Garrix festival energy.",
  "I put 'survivor-of-homework' on my resume, should I?",
  "Camera? Check. Headphones? Check. Energy? Too much, maybe.",
  "If my shots were loot, they'd be legendary.",
  "Mr. Walters made WWII feel like a whole movie — the discussions were wild.",
  "Ms. McGarry legit made me care about streams and soil tests — science rules."]

def REJECTIONS : List String := [
  "Himmy couldn't compute — get it, cause I'm trying to be a robot today? 🤖",
  "Oops, that one made my circuits hiccup. Try rephrasing?",
  "Error 404: Chill answer not found. Can you ask that another way?",
  "My brain's buffering. Say that again but like, simpler?",
  "Himmy's brain went on a snack break. Mind rewording that?",
  "Brain offline for homework. Ask me later? jk, try again lol."]

/-- Branch-local pool of the `photography` intent in `build_response`. -/
def PHOTOGRAPHY_TIPS : List String := [
  "Try shooting during golden hour and look for reflections on the river — instant mood.",
  "Bring a small tripod for low-light shots, or bump ISO if you gotta move fast.",
  "Frame with foreground interest (like branches or a bridge) for more depth."]

def SLED_LINES : List String := [
  "Oh man, the hill by St. John's Lane Elementary — absolute chaos in winter, we loved it.",
  "We used to sled that hill until someone yelled 'car!' (kidding, but it felt wild).",
  "Nostalgia hit hard — scraped knees, big laughs, and the best hot chocolate after."]

def EDM_LINES : List String := [
  "I love them all — from chill Flume to festival Martin Garrix bangers.",
  "My playlist goes Calvin Harris → Diplo → Skrillex → chill again — variety is the mood.",
  "Drop an artist and I'll tell you my fave track by them."]

def GAME_LINES : List String := [
  "Survev matches are peak stress and thrill, ngl. Clutch plays feel so good.",
  "If you wanna squad up, I can lowkey carry (or at least try).",
  "My strategy: third-person peek, then full send — works more than you'd think."]

def REC_LINES : List String := [
  "Photo rec: try the Avalon area of Patapsco for river shots at sunset.",
  "EDM rec: add Flume's instrumental tracks for chill vibes, then switch to Martin Garrix for hype.",
  "Game rec: try a 2v2 Survev run if you want chaos and comebacks."]

def WW2_LINES : List String := [
  "WWII was intense to unpack — we traced causes, theaters, homefront shifts, and the aftermath.",
  "Mr. Walters had us do these timeline debates on the European and Pacific fronts — super deep.",
  "I remember the class discussion on how tech and logistics changed the war — totally fascinating."]

def HISTORY_LINES : List String := [
  "I've been obsessed with WWII timelines and how events connected across theaters.",
  "History sucked me in because Mr. Walters made it feel like a story — especially WWII.",
  "I like tracing cause-and-effect in history; WW2 chapters were my favorite to dissect."]

def APES_LINES : List String := [
  "Ms. McGarry's APES class was hands-on — we did stream surveys and soil tests that made Patapsco feel personal.",
  "She made ecology click for me; I still think about watershed stuff when I'm near the river.",
  "APES labs + a Patapsco field trip = instant respect for local ecosystems."]

/-- Model of `random.choice(pool)` with an injected index, used modulo the
pool length. -/
def pickFrom (pool : List String) (i : Nat) : String := pool.getD (i % pool.length) ""

/-- Model of `quirk_or_quip(quip_text)`. -/
def quirk_or_quip (quip_text : String) : String :=
  if quip_text = "" then "" else quip_text

/-- One injected draw per random call site of `build_response`.  Fields
`opener`, `followUp`, `quip` feed the three pool draws made at the top of
every call; `flavor` feeds the single branch-local `random.choice`;
`preCoin` is the branch's `random.random() < p` opener-inclusion
comparison; `localCoin` is the photography branch's extra 0.6 comparison;
`topic1`, `echoCoin`, `topic2` feed the fallback path. -/
structure BRand where
  opener : Nat
  followUp : Nat
  quip : Nat
  flavor : Nat
  preCoin : Bool
  localCoin : Bool
  topic1 : Nat
  echoCoin : Bool
  topic2 : Nat

/-- Identity of the pool consumed by one random draw, for counting
randomness consumption per call. -/
inductive Pool where
  | openers
  | topics
  | followUps
  | quips
  | rejections
  | flavors
  | coin
deriving DecidableEq, BEq, Repr


/-- Model of `build_response(user_input)`: the reply string.  The three
shared draws `opener`, `follow_up`, `quip` happen once at the top of every
call, as in the source; the `TOPICS` pool is only sampled inside the
fallback path (twice when the input is non-blank, because the first draw
of `base` is overwritten). -/
def build_response (user_input : String) (r : BRand) : String :=
  let opener := pickFrom OPENERS r.opener
  let follow_up := pickFrom FOLLOW_UPS r.followUp
  let quip := pickFrom QUIPS r.quip
  let intent := detect_intent user_input
  if intent = some "greeting" then
    let pre := if r.preCoin then opener else ""
    pre ++ " I'm Himmy — I dig games, EDM, history, and taking photos around Patapsco. " ++
      SURVEV_LINE ++ " " ++ follow_up
  else if intent = some "patapsco_photo" then
    opener ++ " Patapsco Valley State Park is my go-to — those old bridges, the river, " ++
      "and the trees are prime for moody shots at golden hour. If you want, I can talk composition " ++
      "or where I snag my fav shots. " ++ quirk_or_quip quip ++ " " ++ SURVEV_LINE ++ " " ++
      follow_up
  else if intent = some "photography" then
    let tips := pickFrom PHOTOGRAPHY_TIPS r.flavor
    let localLine :=
      if r.localCoin then "Patapsco's trails are sick if you ever wanna scout spots." else ""
    let pre := if r.preCoin then opener else ""
    pre ++ " " ++ tips ++ " " ++ localLine ++ " " ++ quirk_or_quip quip ++ " " ++ SURVEV_LINE ++
      " " ++ follow_up
  else if intent = some "sled" then
    let pre := if r.preCoin then opener else ""
    pre ++ " " ++ pickFrom SLED_LINES r.flavor ++ " " ++ quirk_or_quip quip ++ " " ++
      SURVEV_LINE ++ " " ++ follow_up
  else if intent = some "edm" then
    let edm_line := pickFrom EDM_LINES r.flavor
    let pre := if r.preCoin then opener else ""
    pre ++ " " ++ edm_line ++ " " ++ quirk_or_quip quip ++ " " ++ SURVEV_LINE ++ " " ++ follow_up
  else if intent = some "game" then
    let game_line := pickFrom GAME_LINES r.flavor
    let pre := if r.preCoin then opener else ""
    pre ++ " " ++ game_line ++ " " ++ quirk_or_quip quip ++ " " ++ SURVEV_LINE ++ " " ++ follow_up
  else if intent = some "recommend" then
    let recs := pickFrom REC_LINES r.flavor
    let pre := if r.preCoin then opener else ""
    pre ++ " " ++ recs ++ " " ++ quirk_or_quip quip ++ " " ++ SURVEV_LINE ++ " " ++ follow_up
  else if intent = some "ww2" then
    let resource_tip :=
      "If you like primary sources, ask me for a cool primary doc or battle overview."
    let pre := if r.preCoin then opener else ""
    pre ++ " " ++ pickFrom WW2_LINES r.flavor ++ " " ++ resource_tip ++ " " ++
      quirk_or_quip quip ++ " " ++ SURVEV_LINE ++ " " ++ follow_up
  else if intent = some "mr_walters" then
    let pre := if r.preCoin then opener else ""
    pre ++ " Mr. Walters' AP World class was my fav — his WWII units had the best debates and " ++
      "those mock 'diplomacy' roleplays. He pushed us to think about cause and effect, which I loved. " ++
      quirk_or_quip quip ++ " " ++ SURVEV_LINE ++ " " ++ follow_up
  else if intent = some "history" then
    let pre := if r.preCoin then opener else ""
    pre ++ " " ++ pickFrom HISTORY_LINES r.flavor ++ " " ++ quirk_or_quip quip ++ " " ++
      SURVEV_LINE ++ " " ++ follow_up
  else if intent = some "apenv" then
    let lab_tip :=
      "If you want a quick lab idea: try a simple macroinvertebrate kicknet survey to gauge stream health."
    let pre := if r.preCoin then opener else ""
    pre ++ " " ++ pickFrom APES_LINES r.flavor ++ " " ++ lab_tip ++ " " ++ quirk_or_quip quip ++
      " " ++ SURVEV_LINE ++ " " ++ follow_up
  else if intent = some "unknown_question" then
    let rejection := pickFrom REJECTIONS r.flavor
    let pre := if r.preCoin then opener else ""
    pre ++ " " ++ rejection ++ " " ++ follow_up
  else
    let base0 := opener ++ " " ++ pickFrom TOPICS r.topic1
    if pyStrip user_input = "" then
      base0 ++ " " ++ quip ++ " " ++ SURVEV_LINE ++ " " ++ follow_up
    else if r.echoCoin then
      opener ++ " You said: " ++ pyStrip user_input ++ " — " ++ pickFrom TOPICS r.topic2 ++
        " " ++ quip ++ " " ++ SURVEV_LINE ++ " " ++ follow_up
    else
      opener ++ " " ++ pickFrom TOPICS r.topic2 ++ " " ++ quip ++ " " ++ SURVEV_LINE ++ " " ++
        follow_up

/-- The sequence of random draws `build_response(user_input)` makes, in
execution order, labelled by the pool each draw consumes.  Branch
structure mirrors `build_response`. -/
def buildTrace (user_input : String) : List Pool :=
  let top : List Pool := [.openers, .followUps, .quips]
  let intent := detect_intent user_input
  if intent = some "greeting" then top ++ [.coin]
  else if intent = some "patapsco_photo" then top
  else if intent = some "photography" then top ++ [.flavors, .coin, .coin]
  else if intent = some "sled" then top ++ [.coin, .flavors]
  else if intent = some "edm" then top ++ [.flavors, .coin]
  else if intent = some "game" then top ++ [.flavors, .coin]
  else if intent = some "recommend" then top ++ [.flavors, .coin]
  else if intent = some "ww2" then top ++ [.coin, .flavors]
  else if intent = some "mr_walters" then top ++ [.coin]
  else if intent = some "history" then top ++ [.coin, .flavors]
  else if intent = some "apenv" then top ++ [.coin, .flavors]
  else if intent = some "unknown_question" then top ++ [.rejections, .coin]
  else if pyStrip user_input = "" then top ++ [.topics]
  else top ++ [.topics, .coin, .topics]

theorem pickFrom_mem {pool : List String} (h : 0 < pool.length) (i : Nat) :
    pickFrom pool i ∈ pool := by
  unfold pickFrom
  have hlt : i % pool.length < pool.length := Nat.mod_lt i h
  rw [List.getD_eq_getElem?_getD, List.getElem?_eq_getElem hlt]
  simp

theorem pickFrom_QUIPS_ne (i : Nat) : pickFrom QUIPS i ≠ "" := by
  have hm := @pickFrom_mem QUIPS (by decide) i
  have hne : ∀ x ∈ QUIPS, x ≠ "" := by decide
  exact hne _ hm

theorem quirk_eq {q : String} (h : q ≠ "") : quirk_or_quip q = q := by
  unfold quirk_or_quip
  rw [if_neg h]

/-- `detect_intent` only ever produces `none` or one of the twelve
labelled intents. -/
theorem detect_intent_cases (s : String) :
    detect_intent s = none ∨ detect_intent s = some "greeting" ∨
    detect_intent s = some "ww2" ∨ detect_intent s = some "mr_walters" ∨
    detect_intent s = some "apenv" ∨ detect_intent s = some "patapsco_photo" ∨
    detect_intent s = some "sled" ∨ detect_intent s = some "photography" ∨
    detect_intent s = some "edm" ∨ detect_intent s = some "game" ∨
    detect_intent s = some "history" ∨ detect_intent s = some "recommend" ∨
    detect_intent s = some "unknown_question" := by
  unfold detect_intent
  simp only []
  by_cases h1 : pyStrip (pyLower s) = ""
  · rw [if_pos h1]; simp
  · rw [if_neg h1]
    by_cases h2 : greetingHit (pyLower s) = true
    · rw [if_pos h2]; simp
    · rw [if_neg h2]
      by_cases h3 : ww2Hit (pyLower s) = true
      · rw [if_pos h3]; simp
      · rw [if_neg h3]
        by_cases h4 : (strHasB (pyLower s) "walter" || strHasB (pyLower s) "mr. walters" || strHasB (pyLower s) "mr walters") = true
        · rw [if_pos h4]; simp
        · rw [if_neg h4]
          by_cases h5 : contains_any (pyLower s) _APENV_KEYS = true
          · rw [if_pos h5]; simp
          · rw [if_neg h5]
            by_cases h6 : (contains_any (pyLower s) _PATAPSC0_KEYS && contains_any (pyLower s) _PHOTO_KEYWORDS) = true
            · rw [if_pos h6]; simp
            · rw [if_neg h6]
              by_cases h7 : contains_any (pyLower s) _SLED_KEYS = true
              · rw [if_pos h7]; simp
              · rw [if_neg h7]
                by_cases h8 : contains_any (pyLower s) _PHOTO_KEYWORDS = true
                · rw [if_pos h8]; simp
                · rw [if_neg h8]
                  by_cases h9 : contains_any (pyLower s) _EDM_KEYS = true
                  · rw [if_pos h9]; simp
                  · rw [if_neg h9]
                    by_cases h10 : contains_any (pyLower s) _GAME_KEYS = true
                    · rw [if_pos h10]; simp
                    · rw [if_neg h10]
                      by_cases h11 : contains_any (pyLower s) _HISTORY_KEYS = true
                      · rw [if_pos h11]; simp
                      · rw [if_neg h11]
                        by_cases h12 : (strHasB (pyLower s) "recommend" || strHasB (pyLower s) "rec") = true
                        · rw [if_pos h12]; simp
                        · rw [if_neg h12]
                          by_cases h13 : endsQmark (pyStrip (pyLower s)) = true
                          · rw [if_pos h13]; simp
                          · rw [if_neg h13]
                            simp

/-- A fixed sample of injected draws, used for concrete evaluations. -/
def rc0 : BRand :=
  { opener := 0, followUp := 0, quip := 0, flavor := 0, preCoin := true,
    localCoin := true, topic1 := 0, echoCoin := true, topic2 := 0 }

set_option maxRecDepth 40000 in
/-- C4 — The claim as stated is refuted: "hi" is classified as the topical
intent `greeting`, but the composed greeting response does not contain the
chosen quip (the greeting branch omits the quip). -/
theorem c4_counterexample :
    detect_intent "hi" = some "greeting" ∧
    ¬ strHas (build_response "hi" rc0) (pickFrom QUIPS rc0.quip) := by
  refine ⟨by decide, fun h => ?_⟩
  have hb := (strHasB_iff _ _).mpr h
  have hf : strHasB (build_response "hi" rc0) (pickFrom QUIPS rc0.quip) = false := by decide
  rw [hf] at hb
  exact Bool.false_ne_true hb

/-- The flavor content each topical branch of `build_response`
interpolates after the opener: a branch-local random line for the
pool-based intents, a fixed literal for `greeting`, `patapsco_photo` and
`mr_walters`. -/
def intentFlavor (i : String) (r : BRand) : String :=
  if i = "greeting" then
    " I'm Himmy — I dig games, EDM, history, and taking photos around Patapsco. "
  else if i = "patapsco_photo" then
    " Patapsco Valley State Park is my go-to — those old bridges, the river, "
  else if i = "photography" then pickFrom PHOTOGRAPHY_TIPS r.flavor
  else if i = "sled" then pickFrom SLED_LINES r.flavor
  else if i = "edm" then pickFrom EDM_LINES r.flavor
  else if i = "game" then pickFrom GAME_LINES r.flavor
  else if i = "recommend" then pickFrom REC_LINES r.flavor
  else if i = "ww2" then pickFrom WW2_LINES r.flavor
  else if i = "mr_walters" then
    " Mr. Walters' AP World class was my fav — his WWII units had the best debates and "
  else if i = "history" then pickFrom HISTORY_LINES r.flavor
  else if i = "apenv" then pickFrom APES_LINES r.flavor
  else ""

/-- C4 (amended) — For every input classified to a topical intent, the
composed response contains the constant Survev tagline, the chosen
follow-up question and the intent's flavor line; for every topical intent
except `greeting` it also contains the randomly chosen quip (the greeting
branch omits the quip). -/
theorem c4_response_components (input : String) (r : BRand) (i : String)
    (hi : detect_intent input = some i)
    (htop : i ∈ ["greeting", "patapsco_photo", "photography", "sled", "edm", "game",
      "recommend", "ww2", "mr_walters", "history", "apenv"]) :
    strHas (build_response input r) SURVEV_LINE ∧
    strHas (build_response input r) (pickFrom FOLLOW_UPS r.followUp) ∧
    strHas (build_response input r) (intentFlavor i r) ∧
    (i ≠ "greeting" → strHas (build_response input r) (pickFrom QUIPS r.quip)) := by
  have hq : quirk_or_quip (pickFrom QUIPS r.quip) = pickFrom QUIPS r.quip :=
    quirk_eq (pickFrom_QUIPS_ne r.quip)
  fin_cases htop
  · simp only [build_response, hi, intentFlavor]
    simp
    refine ⟨?_, ?_, ?_⟩
    · exact strHas_appL _ (strHas_appL _ (strHas_appR _ (strHas_refl _)))
    · exact strHas_appR _ (strHas_refl _)
    · exact strHas_appL _ (strHas_appL _ (strHas_appL _ (strHas_appR _ (strHas_refl _))))
  all_goals
    simp only [build_response, hi, hq, intentFlavor]
    simp [hq]
    refine ⟨?_, ?_, ?_, ?_⟩
  all_goals
    first
    | exact strHas_appL _ (strHas_appL _ (strHas_appR _ (strHas_refl _)))
    | exact strHas_appR _ (strHas_refl _)
    | exact strHas_appL _ (strHas_appL _ (strHas_appL _ (strHas_appL _ (strHas_appR _
        (strHas_refl _)))))
    | exact strHas_appL _ (strHas_appL _ (strHas_appL _ (strHas_appL _ (strHas_appL _
        (strHas_appL _ (strHas_appR _ (strHas_refl _)))))))
    | exact strHas_appL _ (strHas_appL _ (strHas_appL _ (strHas_appL _ (strHas_appL _
        (strHas_appL _ (strHas_appL _ (strHas_appR _ (strHas_refl _))))))))
    | exact strHas_appL _ (strHas_appL _ (strHas_appL _ (strHas_appL _ (strHas_appL _
        (strHas_appL _ (strHas_appL _ (strHas_appL _ (strHas_appR _ (strHas_refl _)))))))))

/-- Witness for C4: "ww2" is classified as `ww2` and its response contains
tagline, follow-up, flavor line and quip. -/
theorem c4_response_components_witness :
    detect_intent "ww2" = some "ww2" ∧
    strHas (build_response "ww2" rc0) SURVEV_LINE ∧
    strHas (build_response "ww2" rc0) (pickFrom FOLLOW_UPS rc0.followUp) ∧
    strHas (build_response "ww2" rc0) (intentFlavor "ww2" rc0) ∧
    strHas (build_response "ww2" rc0) (pickFrom QUIPS rc0.quip) := by
  have h := c4_response_components "ww2" rc0 "ww2" (by decide) (by decide)
  exact ⟨by decide, h.1, h.2.1, h.2.2.1, h.2.2.2 (by decide)⟩

/-- C5 — The claim as stated is refuted: on the non-blank no-intent input
"zzz" the `TOPICS` pool is sampled twice in one `build_response` call
(the draw for the overwritten first `base` is wasted), not exactly once. -/
theorem c5_counterexample :
    (buildTrace "zzz").count Pool.topics = 2 ∧
    ¬ (buildTrace "zzz").count Pool.topics = 1 := by decide

/-- C5 (amended) — Per `build_response` call, the openers, follow-ups and
quips pools are each drawn from exactly once (at the top, reused by every
branch), but the topics pool is drawn only by the fallback path: zero
times for any classified intent, once for blank input, twice for
non-blank unclassified input. -/
theorem c5_draw_counts (input : String) :
    (buildTrace input).count Pool.openers = 1 ∧
    (buildTrace input).count Pool.followUps = 1 ∧
    (buildTrace input).count Pool.quips = 1 ∧
    (buildTrace input).count Pool.topics =
      (if detect_intent input = none then (if pyStrip input = "" then 1 else 2) else 0) := by
  rcases detect_intent_cases input with h | h | h | h | h | h | h | h | h | h | h | h | h
  · by_cases hs : pyStrip input = "" <;> simp [buildTrace, h, hs] <;> decide
  all_goals (simp [buildTrace, h]; decide)

theorem strHas_ne_empty {s t : String} (h : strHas s t) (ht : t.data ≠ []) : s ≠ "" := by
  intro he
  subst he
  obtain ⟨a, b, hab⟩ := h
  cases htd : t.data with
  | nil => exact ht htd
  | cons c cs =>
    rw [htd, show ("" : String).data = [] from rfl] at hab
    exact absurd hab.symm (by simp)

theorem all_space_strip_nil {l : List Char} (h : l.all pySpace = true) : stripList l = [] := by
  have h1 : List.dropWhile pySpace l = [] :=
    List.dropWhile_eq_nil_iff.mpr (fun x hx => List.all_eq_true.mp h x hx)
  rw [stripList, h1]
  rfl

theorem lowerChar_space {c : Char} (h : pySpace c = true) : lowerChar c = c := by
  have h' : c = ' ' ∨ c = '\t' ∨ c = '\n' ∨ c = '\r' ∨ c = '\x0b' ∨ c = '\x0c' := by
    simpa [pySpace, or_assoc] using h
  rcases h' with rfl | rfl | rfl | rfl | rfl | rfl <;> decide

theorem space_lower {input : String} (h : pyStrip input = "") : pyStrip (pyLower input) = "" := by
  have hall : input.data.all pySpace = true := by
    apply stripList_eq_nil
    have := congrArg String.data h
    simpa [pyStrip] using this
  have hall2 : (pyLower input).data.all pySpace = true := by
    show (input.data.map lowerChar).all pySpace = true
    rw [List.all_map]
    rw [List.all_eq_true] at hall ⊢
    intro x hx
    have hs := hall x hx
    simpa [Function.comp, lowerChar_space hs] using hs
  show String.mk (stripList (pyLower input).data) = ""
  rw [all_space_strip_nil hall2]

theorem detect_none_of_space {input : String} (h : pyStrip input = "") :
    detect_intent input = none := by
  have h2 := space_lower h
  simp [detect_intent, h2]

/-- Every branch of `build_response` includes at least one literal space
between fragments, so the reply is never empty. -/
theorem build_response_has_space (input : String) (r : BRand) :
    strHas (build_response input r) " " := by
  rcases detect_intent_cases input with h | h | h | h | h | h | h | h | h | h | h | h | h <;>
    simp only [build_response, h] <;> simp
  all_goals repeat' split
  all_goals exact strHas_appL _ (strHas_appR _ (strHas_refl _))

/-- The reply shape the spec asserts for the blank-input fallback: opener,
topic, quip, tagline and follow-up, with no echo of the input.  Stated
from the spec's words, for comparison with `build_response`. -/
def specEmptyFallback (r : BRand) : String :=
  pickFrom OPENERS r.opener ++ " " ++ pickFrom TOPICS r.topic1 ++ " " ++ pickFrom QUIPS r.quip ++
    " " ++ SURVEV_LINE ++ " " ++ pickFrom FOLLOW_UPS r.followUp

/-- C6 — `build_response` always returns a non-empty string, and on
blank (empty or whitespace-only) input the reply is exactly the
opener/topic/quip/tagline/follow-up template, which echoes nothing of the
input. -/
theorem c6_total_nonempty_no_echo (input : String) (r : BRand) :
    build_response input r ≠ "" ∧
    (pyStrip input = "" → build_response input r = specEmptyFallback r) := by
  constructor
  · exact strHas_ne_empty (build_response_has_space input r) (by decide)
  · intro hs
    have hn : detect_intent input = none := detect_none_of_space hs
    simp [build_response, hn, hs, specEmptyFallback]

/-- Witness for C6 at the whitespace-only input " ". -/
theorem c6_total_nonempty_no_echo_witness :
    build_response " " rc0 ≠ "" ∧ build_response " " rc0 = specEmptyFallback rc0 :=
  ⟨(c6_total_nonempty_no_echo " " rc0).1, (c6_total_nonempty_no_echo " " rc0).2 (by decide)⟩

/-! ### Command parser -/

/-- The regex class `[,:\s]` used by the "himmy" grammar. -/
def isSepChar (c : Char) : Bool := c == ',' || c == ':' || pySpace c

/-- The tail clause `(?:\s+(.*))?$` of both command grammars, applied to
the text after the command name.  The subject string is already stripped,
so `$` cannot match before a trailing newline; `.` does not match a
newline, so the clause succeeds only when everything after the leading
whitespace run is newline-free, capturing that remainder (empty capture
when the whole tail is empty). -/
def tailCapture (t : List Char) : Option (List Char) :=
  match t with
  | [] => some []
  | c :: _ =>
    if pySpace c then
      let u := t.dropWhile pySpace
      if u.contains '\n' then none else some u
    else none

/-- Grammar 1 of `parse_command`: `^[/!](\w+)(?:\s+(.*))?$`. -/
def symGrammar (s : List Char) : Option (List Char × List Char) :=
  match s with
  | [] => none
  | c :: rest =>
    if c = '!' ∨ c = '/' then
      let w := rest.takeWhile isWordChar
      if w = [] then none
      else
        match tailCapture (rest.dropWhile isWordChar) with
        | none => none
        | some g2 => some (w, g2)
    else none

/-- Grammar 2 of `parse_command`: `^himmy[,:\s]+\s*(\w+)(?:\s+(.*))?$`
with `re.I`.  Since `\s* ⊆ [,:\s]*`, the separator clause matches exactly
a nonempty run of comma/colon/whitespace characters. -/
def himmyGrammar (s : List Char) : Option (List Char × List Char) :=
  if (s.take 5).map lowerChar = "himmy".data then
    let r := s.drop 5
    if r.takeWhile isSepChar = [] then none
    else
      let r2 := r.dropWhile isSepChar
      let w := r2.takeWhile isWordChar
      if w = [] then none
      else
        match tailCapture (r2.dropWhile isWordChar) with
        | none => none
        | some g2 => some (w, g2)
  else none

/-- Model of `parse_command(user_input)`: name lowercased, argument
stripped, `(none, "")` when neither grammar matches. -/
def parse_command (user_input : String) : Option String × String :=
  let s := (pyStrip user_input).data
  match symGrammar s with
  | some (w, g2) => (some (String.mk (w.map lowerChar)), pyStrip (String.mk g2))
  | none =>
    match himmyGrammar s with
    | some (w, g2) => (some (String.mk (w.map lowerChar)), pyStrip (String.mk g2))
    | none => (none, "")

theorem parse_norm (w g2 : List Char) :
    pyLower (String.mk (w.map lowerChar)) = String.mk (w.map lowerChar) ∧
    pyStrip (pyStrip (String.mk g2)) = pyStrip (String.mk g2) := by
  constructor
  · show String.mk (((String.mk (w.map lowerChar)).data).map lowerChar) = _
    simp [List.map_map, Function.comp_def, lowerChar_idem]
  · exact pyStrip_idem _

/-- C8 — The command parser satisfies the three specified examples;
whenever neither grammar matches it returns `(none, "")`; and whenever a
grammar matches the command name is lower-cased and the argument
trimmed. -/
theorem c8_parse_command :
    parse_command "!roll 2d6" = (some "roll", "2d6") ∧
    parse_command "himmy, rec edm" = (some "rec", "edm") ∧
    parse_command "hello there" = (none, "") ∧
    (∀ s : String, symGrammar (pyStrip s).data = none →
      himmyGrammar (pyStrip s).data = none → parse_command s = (none, "")) ∧
    (∀ (s c a : String), parse_command s = (some c, a) →
      pyLower c = c ∧ pyStrip a = a) := by
  refine ⟨by decide, by decide, by decide, ?_, ?_⟩
  · intro s h1 h2
    simp [parse_command, h1, h2]
  · intro s c a h
    unfold parse_command at h
    simp only [] at h
    cases h1 : symGrammar (pyStrip s).data with
    | some wg =>
      obtain ⟨w, g2⟩ := wg
      rw [h1] at h
      dsimp only at h
      injection h with hc ha
      injection hc with hc
      rw [← hc, ← ha]
      exact parse_norm w g2
    | none =>
      rw [h1] at h
      dsimp only at h
      cases h2 : himmyGrammar (pyStrip s).data with
      | some wg =>
        obtain ⟨w, g2⟩ := wg
        rw [h2] at h
        dsimp only at h
        injection h with hc ha
        injection hc with hc
        rw [← hc, ← ha]
        exact parse_norm w g2
      | none =>
        rw [h2] at h
        dsimp only at h
        injection h with hc ha
        exact absurd hc (by simp)

/-- Witness for C8: the universal clauses applied at concrete inputs. -/
theorem c8_parse_command_witness :
    parse_command "hows it going" = (none, "") ∧
    pyLower "roll" = "roll" ∧ pyStrip "2d6" = "2d6" := by
  refine ⟨?_, ?_⟩
  · exact c8_parse_command.2.2.2.1 "hows it going" (by decide) (by decide)
  · exact c8_parse_command.2.2.2.2 "!RoLL  2d6 " "roll" "2d6" (by decide)

/-! ### Command handlers -/

/-- Model of `handle_rec(arg)` (the duplicated "patapsco" test mirrors the
source). -/
def handle_rec (arg : String) : String :=
  let a := pyLower arg
  if strHasB a "edm" then
    "EDM rec: Flume (instrumentals) for chill, Martin Garrix for hype, and try Deadmau5 for texture."
  else if strHasB a "photo" || strHasB a "patapsco" || strHasB a "patapsco" then
    "Photo rec: Avalon area of Patapsco at sunset, or check the old bridges for moody frames."
  else if strHasB a "game" || strHasB a "survev" || strHasB a "surviv" then
    "Game rec: try a 2v2 Survev run if you want chaos and comebacks."
  else if a = "" then
    "Try Flume for chill or Martin Garrix for hype. Ask '!rec edm' or '!rec photo' for specifics."
  else
    "Hmm, not sure about '" ++ arg ++ "', but I'm vibing with Flume and Patapsco shots lately."

theorem pyLower_eq_empty {s : String} (h : pyLower s = "") : s = "" := by
  apply String.ext
  have := congrArg String.data h
  simp only [pyLower] at this
  have hd : s.data.map lowerChar = [] := this
  simpa using List.map_eq_nil_iff.mp hd

/-- C9 — `handle_rec` checks the category substrings of the lower-cased
argument in the priority order edm, photo/patapsco, game/survev/surviv;
an empty argument yields the generic prompt and an unmatched non-empty
argument yields a message echoing the unrecognized term. -/
theorem c9_handle_rec (arg : String) :
    (strHasB (pyLower arg) "edm" = true →
      handle_rec arg =
        "EDM rec: Flume (instrumentals) for chill, Martin Garrix for hype, and try Deadmau5 for texture.") ∧
    (strHasB (pyLower arg) "edm" = false →
      (strHasB (pyLower arg) "photo" || strHasB (pyLower arg) "patapsco") = true →
      handle_rec arg =
        "Photo rec: Avalon area of Patapsco at sunset, or check the old bridges for moody frames.") ∧
    (strHasB (pyLower arg) "edm" = false →
      (strHasB (pyLower arg) "photo" || strHasB (pyLower arg) "patapsco") = false →
      (strHasB (pyLower arg) "game" || strHasB (pyLower arg) "survev" ||
        strHasB (pyLower arg) "surviv") = true →
      handle_rec arg =
        "Game rec: try a 2v2 Survev run if you want chaos and comebacks.") ∧
    (arg = "" →
      handle_rec arg =
        "Try Flume for chill or Martin Garrix for hype. Ask '!rec edm' or '!rec photo' for specifics.") ∧
    (arg ≠ "" →
      strHasB (pyLower arg) "edm" = false →
      (strHasB (pyLower arg) "photo" || strHasB (pyLower arg) "patapsco") = false →
      (strHasB (pyLower arg) "game" || strHasB (pyLower arg) "survev" ||
        strHasB (pyLower arg) "surviv") = false →
      handle_rec arg =
        "Hmm, not sure about '" ++ arg ++ "', but I'm vibing with Flume and Patapsco shots lately.") := by
  refine ⟨?_, ?_, ?_, ?_, ?_⟩
  · intro h1
    simp [handle_rec, h1]
  · intro h1 h2
    simp only [Bool.or_eq_true] at h2
    simp [handle_rec, h1]
    rcases h2 with h2 | h2 <;> simp [h2]
  · intro h1 h2 h3
    simp only [Bool.or_eq_false_iff] at h2
    simp [handle_rec, h1, h2.1, h2.2, h3]
  · intro h1
    subst h1
    decide
  · intro h1 h2 h3 h4
    simp only [Bool.or_eq_false_iff] at h3 h4
    have ha : ¬ pyLower arg = "" := fun hl => h1 (pyLower_eq_empty hl)
    simp [handle_rec, h2, h3.1, h3.2, h4.1.1, h4.1.2, h4.2, ha]

/-- Witness for C9: an argument containing both "edm" and "game" yields
the EDM recommendation; empty and unmatched arguments yield the prompt
and the echoing fallback. -/
theorem c9_handle_rec_witness :
    handle_rec "edm game" =
      "EDM rec: Flume (instrumentals) for chill, Martin Garrix for hype, and try Deadmau5 for texture." ∧
    handle_rec "" =
      "Try Flume for chill or Martin Garrix for hype. Ask '!rec edm' or '!rec photo' for specifics." ∧
    handle_rec "xyz" =
      "Hmm, not sure about 'xyz', but I'm vibing with Flume and Patapsco shots lately." := by
  refine ⟨?_, ?_, ?_⟩
  · exact (c9_handle_rec "edm game").1 (by decide)
  · exact (c9_handle_rec "").2.2.2.1 rfl
  · exact (c9_handle_rec "xyz").2.2.2.2 (by decide) (by decide) (by decide) (by decide)

/-- Numeric value of a digit string, modelling `int(...)` on the digit
groups captured by the dice regex. -/
def digitsVal (l : List Char) : Nat := l.foldl (fun acc c => acc * 10 + (c.toNat - 48)) 0

/-- Model of matching the dice regex `(\d*)d(\d+)$` against the (already
stripped) argument and converting the two groups: count (default 1 when
the first group is empty) and sides. -/
def parseDice (s : String) : Option (Nat × Nat) :=
  let c := s.data.takeWhile Char.isDigit
  match s.data.dropWhile Char.isDigit with
  | [] => none
  | d :: tl =>
    if d = 'd' ∧ tl ≠ [] ∧ tl.all Char.isDigit then
      some (if c = [] then 1 else digitsVal c, digitsVal tl)
    else none

/-- Model of `random.randint(a, b)` with an injected raw draw, clamped
into `[a, b]`. -/
def randint (a b : Nat) (raw : Nat) : Nat := a + raw % (b + 1 - a)

/-- Structured outcome of `handle_roll`. -/
inductive RollResult where
  | usage
  | bounds
  | ok (n sides : Nat) (rolls : List Nat)
deriving DecidableEq, Repr

/-- Model of `handle_roll(arg)`: empty argument defaults to "1d6",
non-conforming arguments are rejected, out-of-bounds counts/sides are
rejected, otherwise `n` rolls are drawn. -/
def handle_roll (arg : String) (rng : Nat → Nat) : RollResult :=
  let s0 := pyStrip arg
  let s := if s0 = "" then "1d6" else s0
  match parseDice s with
  | none => .usage
  | some (n, sides) =>
    if n = 0 ∨ sides = 0 ∨ 100 < n then .bounds
    else .ok n sides ((List.range n).map (fun i => randint 1 sides (rng i)))

/-- Python `repr` of a list of integers, as interpolated by the roll
message. -/
def pyListRepr (l : List Nat) : String :=
  "[" ++ String.intercalate ", " (l.map (fun n => Nat.repr n)) ++ "]"

/-- The user-facing message of each `handle_roll` outcome. -/
def renderRoll : RollResult → String
  | .usage => "Use the format NdM, e.g. '!roll 2d6' or '!roll d20'."
  | .bounds => "Can't roll that — pick 1-100 dice and a positive number of sides."
  | .ok n sides rolls =>
    "Rolled " ++ Nat.repr n ++ "d" ++ Nat.repr sides ++ ": " ++ pyListRepr rolls ++
      " (sum: " ++ Nat.repr rolls.sum ++ ")"

/-- Model of `handle_roll(arg)`'s returned string. -/
def handle_roll_msg (arg : String) (rng : Nat → Nat) : String :=
  renderRoll (handle_roll arg rng)

/-- C7 — For a well-formed in-bounds dice argument, `handle_roll` returns
exactly `n` rolls, each in `[1, sides]`, and the message reports their
arithmetic sum; out-of-bounds arguments give the bounds error with no
rolls, and non-conforming arguments give the usage message. -/
theorem c7_handle_roll (arg : String) (rng : Nat → Nat) (n sides : Nat) :
    (parseDice (if pyStrip arg = "" then "1d6" else pyStrip arg) = some (n, sides) →
      1 ≤ n → n ≤ 100 → 1 ≤ sides →
      ∃ rolls : List Nat,
        handle_roll arg rng = .ok n sides rolls ∧
        rolls.length = n ∧
        (∀ x ∈ rolls, 1 ≤ x ∧ x ≤ sides) ∧
        handle_roll_msg arg rng =
          "Rolled " ++ Nat.repr n ++ "d" ++ Nat.repr sides ++ ": " ++ pyListRepr rolls ++
            " (sum: " ++ Nat.repr rolls.sum ++ ")") ∧
    (parseDice (if pyStrip arg = "" then "1d6" else pyStrip arg) = some (n, sides) →
      (n = 0 ∨ sides = 0 ∨ 100 < n) →
      handle_roll arg rng = .bounds) ∧
    (parseDice (if pyStrip arg = "" then "1d6" else pyStrip arg) = none →
      handle_roll arg rng = .usage) := by
  refine ⟨?_, ?_, ?_⟩
  · intro hp h1 h100 hs
    have hr : handle_roll arg rng =
        .ok n sides ((List.range n).map (fun i => randint 1 sides (rng i))) := by
      unfold handle_roll
      simp only []
      rw [hp]
      dsimp only
      rw [if_neg (by omega)]
    refine ⟨(List.range n).map (fun i => randint 1 sides (rng i)), hr, by simp, ?_, ?_⟩
    · intro x hx
      simp only [List.mem_map, List.mem_range] at hx
      obtain ⟨i, _, rfl⟩ := hx
      unfold randint
      simp only [Nat.add_sub_cancel]
      have hmod : rng i % sides < sides := Nat.mod_lt _ (by omega)
      omega
    · rw [handle_roll_msg, hr, renderRoll]
  · intro hp hb
    unfold handle_roll
    simp only []
    rw [hp]
    dsimp only
    rw [if_pos hb]
  · intro hp
    unfold handle_roll
    simp only []
    rw [hp]

/-- Witness for C7 at the arguments "2d6", "0d6", "101d6" and "abc". -/
theorem c7_handle_roll_witness :
    (∃ rolls : List Nat, handle_roll "2d6" (fun i => i) = .ok 2 6 rolls ∧
      rolls.length = 2 ∧ (∀ x ∈ rolls, 1 ≤ x ∧ x ≤ 6)) ∧
    handle_roll "0d6" (fun i => i) = .bounds ∧
    handle_roll "101d6" (fun i => i) = .bounds ∧
    handle_roll "abc" (fun i => i) = .usage := by
  obtain ⟨rolls, hr, hl, hb, _⟩ :=
    (c7_handle_roll "2d6" (fun i => i) 2 6).1 (by decide) (by decide) (by decide) (by decide)
  refine ⟨⟨rolls, hr, hl, hb⟩, ?_, ?_, ?_⟩
  · exact (c7_handle_roll "0d6" (fun i => i) 0 6).2.1 (by decide) (Or.inl rfl)
  · exact (c7_handle_roll "101d6" (fun i => i) 101 6).2.1 (by decide) (Or.inr (Or.inr (by omega)))
  · exact (c7_handle_roll "abc" (fun i => i) 0 0).2.2 (by decide)

/-! ### Conversation state and the per-turn loop logic of `run_chat` -/

/-- Model of the `Conversation` state record. -/
structure Conversation where
  awaiting : Option String
  answer : Option String
deriving DecidableEq, Repr

/-- The fresh state constructed at the start of `run_chat`. -/
def Conversation.init : Conversation := ⟨none, none⟩

/-- Model of `handle_quiz(arg, conv)` (argument ignored, state fields
both set): the question text together with the updated state. -/
def handle_quiz (_arg : String) (_conv : Conversation) : String × Conversation :=
  ("Quiz time: In which year did WWII end?", ⟨some "ww2_end", some "1945"⟩)

/-- Tip pool of the `handle_photo` command handler. -/
def PHOTO_TIPS : List String := [
  "Try shooting during golden hour and look for reflections on the river — instant mood.",
  "Use a small tripod for low-light; or bump ISO for motion shots.",
  "Look for leading lines (like bridges or streams) to draw the eye into the shot."]

/-- Model of `handle_photo(arg)` with an injected tip draw. -/
def handle_photo (arg : String) (tip : Nat) : String :=
  pickFrom PHOTO_TIPS tip ++ (if arg = "" then "" else " Extra: " ++ arg)

/-- Injected draws for one `run_chat` turn: the opener printed before
quiz/command replies, the tip draw of `handle_photo`, the raw roll draws
and the `build_response` draws. -/
structure ChatRand where
  opener2 : Nat
  tip : Nat
  rollRng : Nat → Nat
  br : BRand

/-- Model of `re.sub(r"[^0-9]", "", s)`: keep only ASCII digits. -/
def digitsOnly (s : String) : String := String.mk (s.data.filter Char.isDigit)

/-- Outcome of one iteration of `run_chat`'s loop body. -/
inductive TurnOut where
  | skipped
  | exited (msg : String)
  | quizEval (msg : String)
  | commandReply (msg : String)
  | unknownCommand (msg : String)
  | chat (msg : String)
deriving DecidableEq, Repr

/-- The command-dispatch / intent-responder tail of the loop body
(everything after the awaiting-answer block).  The `COMMAND_HANDLERS`
table lookup is modelled by name; every handler lambda in the source
accepts the `conv` keyword, so the `TypeError` compatibility retry never
fires and is not modelled as a separate outcome. -/
def chatCommandOrIntent (conv : Conversation) (user_input : String) (cr : ChatRand) :
    TurnOut × Conversation :=
  match parse_command user_input with
  | (some cmd, cmd_arg) =>
    if cmd = "photo" then
      (.commandReply (pickFrom OPENERS cr.opener2 ++ " " ++ handle_photo cmd_arg cr.tip), conv)
    else if cmd = "rec" ∨ cmd = "recommend" then
      (.commandReply (pickFrom OPENERS cr.opener2 ++ " " ++ handle_rec cmd_arg), conv)
    else if cmd = "roll" then
      (.commandReply (pickFrom OPENERS cr.opener2 ++ " " ++ handle_roll_msg cmd_arg cr.rollRng),
        conv)
    else if cmd = "quiz" then
      (.commandReply (pickFrom OPENERS cr.opener2 ++ " " ++ (handle_quiz cmd_arg conv).1),
        (handle_quiz cmd_arg conv).2)
    else
      (.unknownCommand (pickFrom OPENERS cr.opener2 ++ " " ++
        ("I don't know the command '" ++ cmd ++ "'. Try !rec or !photo.")), conv)
  | (none, _) => (.chat (build_response user_input cr.br), conv)

/-- Model of one iteration of `run_chat`'s loop body on the raw line
`raw`: strip, skip blank lines, handle the exit sentinels, then (in this
order) the awaiting-quiz-answer block, command dispatch, and the
intent-based responder.  Python's `if conv.awaiting:` is string
truthiness, so an empty-string tag is falsy. -/
def chatStep (conv : Conversation) (raw : String) (cr : ChatRand) : TurnOut × Conversation :=
  let user_input := pyStrip raw
  if user_input = "" then (.skipped, conv)
  else if pyLower user_input = "exit" ∨ pyLower user_input = "quit" then
    (.exited "Later! Stay vibey.", conv)
  else
    match conv.awaiting with
    | some tag =>
      if tag = "" then chatCommandOrIntent conv user_input cr
      else if tag = "ww2_end" then
        let ans := digitsOnly user_input
        let correct := conv.answer.getD ""
        if ans = correct then
          (.quizEval (pickFrom OPENERS cr.opener2 ++ " " ++
            "Nice! That's right — 1945 was the year WWII ended."), ⟨none, none⟩)
        else
          (.quizEval (pickFrom OPENERS cr.opener2 ++ " " ++
            ("Not quite — the correct year was " ++ correct ++ ".")), ⟨none, none⟩)
      else chatCommandOrIntent conv user_input cr
    | none => chatCommandOrIntent conv user_input cr

/-- A fixed sample of per-turn draws for concrete evaluations. -/
def crc : ChatRand := { opener2 := 0, tip := 0, rollRng := fun _ => 0, br := rc0 }

/-- C2 — Quiz round trip: `handle_quiz` sets awaiting = "ww2_end" and
answer = "1945" and returns the question; on the next evaluated turn, the
digits of the input are compared with "1945" — an exact match yields the
affirmation naming the year and anything else the correction naming the
year — and in both cases the state is cleared to Idle. -/
theorem c2_quiz_round_trip :
    (∀ (arg : String) (conv : Conversation),
      handle_quiz arg conv =
        ("Quiz time: In which year did WWII end?",
          ⟨some "ww2_end", some "1945"⟩)) ∧
    (∀ (conv : Conversation) (raw : String) (cr : ChatRand),
      conv.awaiting = some "ww2_end" → conv.answer = some "1945" →
      pyStrip raw ≠ "" →
      ¬(pyLower (pyStrip raw) = "exit" ∨ pyLower (pyStrip raw) = "quit") →
      (digitsOnly (pyStrip raw) = "1945" →
        chatStep conv raw cr =
          (.quizEval (pickFrom OPENERS cr.opener2 ++ " " ++
            "Nice! That's right — 1945 was the year WWII ended."), ⟨none, none⟩)) ∧
      (digitsOnly (pyStrip raw) ≠ "1945" →
        chatStep conv raw cr =
          (.quizEval (pickFrom OPENERS cr.opener2 ++ " " ++
            ("Not quite — the correct year was " ++ "1945" ++ ".")), ⟨none, none⟩))) := by
  refine ⟨fun arg conv => rfl, ?_⟩
  intro conv raw cr hw ha h1 h2
  unfold chatStep
  simp only []
  rw [if_neg h1, if_neg h2, hw]
  dsimp only
  rw [if_neg (by decide), if_pos rfl, ha]
  dsimp only [Option.getD_some]
  constructor
  · intro hd
    rw [if_pos hd]
  · intro hd
    rw [if_neg hd]

/-- Witness for C2: matching answer "1945" and non-matching answer
"the year was nineteen forty four" from the awaiting state. -/
theorem c2_quiz_round_trip_witness :
    handle_quiz "" Conversation.init =
      ("Quiz time: In which year did WWII end?", ⟨some "ww2_end", some "1945"⟩) ∧
    chatStep ⟨some "ww2_end", some "1945"⟩ "1945" crc =
      (.quizEval (pickFrom OPENERS crc.opener2 ++ " " ++
        "Nice! That's right — 1945 was the year WWII ended."), ⟨none, none⟩) ∧
    chatStep ⟨some "ww2_end", some "1945"⟩ "the year was nineteen forty four" crc =
      (.quizEval (pickFrom OPENERS crc.opener2 ++ " " ++
        ("Not quite — the correct year was " ++ "1945" ++ ".")), ⟨none, none⟩) := by
  refine ⟨c2_quiz_round_trip.1 "" Conversation.init, ?_, ?_⟩
  · exact (c2_quiz_round_trip.2 _ "1945" crc rfl rfl (by decide) (by decide)).1 (by decide)
  · exact (c2_quiz_round_trip.2 _ "the year was nineteen forty four" crc rfl rfl
      (by decide) (by decide)).2 (by decide)

/-- The conversation-state invariant: the expected answer is stored
exactly when a question is awaiting, and the only awaited tag is
"ww2_end". -/
def convInv (c : Conversation) : Prop :=
  (c.answer.isSome ↔ c.awaiting.isSome) ∧
  (c.awaiting = none ∨ c.awaiting = some "ww2_end")

theorem chatCommandOrIntent_inv (c : Conversation) (ui : String) (cr : ChatRand)
    (hc : convInv c) : convInv (chatCommandOrIntent c ui cr).2 := by
  unfold chatCommandOrIntent
  cases hpc : parse_command ui with
  | mk cmdO argS =>
    cases cmdO with
    | some cmd =>
      dsimp only
      repeat' split
      all_goals first
        | exact hc
        | exact ⟨by simp [handle_quiz], Or.inr (by simp [handle_quiz])⟩
    | none => exact hc

/-- C3 — The invariant holds in the initial state and is preserved by the
quiz handler and by every turn of the loop (including answer
evaluation). -/
theorem c3_state_invariant :
    convInv Conversation.init ∧
    (∀ (arg : String) (c : Conversation), convInv c → convInv (handle_quiz arg c).2) ∧
    (∀ (c : Conversation) (raw : String) (cr : ChatRand),
      convInv c → convInv (chatStep c raw cr).2) := by
  refine ⟨by constructor <;> simp [Conversation.init], ?_, ?_⟩
  · intro arg c _
    exact ⟨by simp [handle_quiz], Or.inr (by simp [handle_quiz])⟩
  · intro c raw cr hc
    unfold chatStep
    simp only []
    by_cases h1 : pyStrip raw = ""
    · rw [if_pos h1]; exact hc
    rw [if_neg h1]
    by_cases h2 : pyLower (pyStrip raw) = "exit" ∨ pyLower (pyStrip raw) = "quit"
    · rw [if_pos h2]; exact hc
    rw [if_neg h2]
    cases hw : c.awaiting with
    | some tag =>
      dsimp only
      by_cases h3 : tag = ""
      · rw [if_pos h3]; exact chatCommandOrIntent_inv c _ cr hc
      rw [if_neg h3]
      by_cases h4 : tag = "ww2_end"
      · rw [if_pos h4]
        split
        · exact ⟨by simp, Or.inl rfl⟩
        · exact ⟨by simp, Or.inl rfl⟩
      · rw [if_neg h4]; exact chatCommandOrIntent_inv c _ cr hc
    | none =>
      dsimp only
      exact chatCommandOrIntent_inv c _ cr hc

/-- Witness for C3 at the initial state, a quiz dispatch, and an
answer-evaluation turn. -/
theorem c3_state_invariant_witness :
    convInv Conversation.init ∧
    convInv (handle_quiz "" Conversation.init).2 ∧
    convInv (chatStep ⟨some "ww2_end", some "1945"⟩ "7" crc).2 := by
  refine ⟨c3_state_invariant.1, ?_, ?_⟩
  · exact c3_state_invariant.2.1 "" Conversation.init c3_state_invariant.1
  · exact c3_state_invariant.2.2 ⟨some "ww2_end", some "1945"⟩ "7" crc (by constructor <;> simp)

/-- C10 — While a quiz answer is awaited, a blank line is skipped and a
sentinel line exits, in both cases without reaching answer evaluation and
without clearing the awaiting state; evaluation (with the state cleared)
happens exactly on a non-blank, non-sentinel line. -/
theorem c10_awaiting_gate (conv : Conversation) (raw : String) (cr : ChatRand)
    (hw : conv.awaiting = some "ww2_end") :
    (pyStrip raw = "" → chatStep conv raw cr = (.skipped, conv)) ∧
    (pyLower (pyStrip raw) = "exit" ∨ pyLower (pyStrip raw) = "quit" →
      chatStep conv raw cr = (.exited "Later! Stay vibey.", conv)) ∧
    (pyStrip raw ≠ "" → ¬(pyLower (pyStrip raw) = "exit" ∨ pyLower (pyStrip raw) = "quit") →
      ∃ msg, chatStep conv raw cr = (.quizEval msg, ⟨none, none⟩)) := by
  refine ⟨?_, ?_, ?_⟩
  · intro hs
    unfold chatStep
    simp only []
    rw [if_pos hs]
  · intro hs
    have hne : pyStrip raw ≠ "" := by
      intro he
      rw [he] at hs
      rcases hs with h | h <;> exact absurd h (by decide)
    unfold chatStep
    simp only []
    rw [if_neg hne, if_pos hs]
  · intro h1 h2
    unfold chatStep
    simp only []
    rw [if_neg h1, if_neg h2, hw]
    dsimp only
    rw [if_neg (by decide), if_pos rfl]
    by_cases hd : digitsOnly (pyStrip raw) = conv.answer.getD ""
    · rw [if_pos hd]; exact ⟨_, rfl⟩
    · rw [if_neg hd]; exact ⟨_, rfl⟩

/-- Witness for C10: blank, sentinel and answer lines from the awaiting
state. -/
theorem c10_awaiting_gate_witness :
    chatStep ⟨some "ww2_end", some "1945"⟩ "   " crc =
      (.skipped, ⟨some "ww2_end", some "1945"⟩) ∧
    chatStep ⟨some "ww2_end", some "1945"⟩ "EXIT" crc =
      (.exited "Later! Stay vibey.", ⟨some "ww2_end", some "1945"⟩) ∧
    (∃ msg, chatStep ⟨some "ww2_end", some "1945"⟩ "1944" crc = (.quizEval msg, ⟨none, none⟩)) := by
  have h := c10_awaiting_gate ⟨some "ww2_end", some "1945"⟩ "   " crc rfl
  have h2 := c10_awaiting_gate ⟨some "ww2_end", some "1945"⟩ "EXIT" crc rfl
  have h3 := c10_awaiting_gate ⟨some "ww2_end", some "1945"⟩ "1944" crc rfl
  exact ⟨h.1 (by decide), h2.2.1 (by decide), h3.2.2 (by decide) (by decide)⟩
